import Mathlib

/-!
Verification development for the Sensor_LDR repository.

The repository has two C++ sources:

* `sensor_ldr.cpp` — class `SensorLDR` (constants `R_CLARO`, `R_ESCURO`,
  `ADC_MAX`, `R_FIXO`; methods `lerValor`, `lerLuminosidadePercentual`) and
  a `main` printing the luminosity once per second.
* `clienteUDP_sensor_ldr.cpp` — the same class (with an open-check in
  `lerValor`) plus a `main` that sends the percentage as a UDP datagram
  each cycle.

Modelling conventions: C `float` values are modelled as exact real numbers.
The two edge inputs `valor = 0` (division by zero, `+∞` under IEEE-754) and
`valor = ADC_MAX` (`log 0`, `-∞` under IEEE-754) are modelled with the
extended reals `EReal`, mirroring the IEEE special values the hardware
produces; the strict float comparisons in the source then become strict
`EReal` comparisons. Integer truncation of `static_cast<int>` is truncation
toward zero.
-/

open Real

/-- Truncation toward zero of a real number: the semantics of C++
`static_cast<int>` applied to a finite, in-`int`-range floating value. -/
noncomputable def truncToInt (x : ℝ) : ℤ := if 0 ≤ x then ⌊x⌋ else ⌈x⌉

/-- Extended-real natural logarithm with the conventions of the C `log`
function on nonnegative arguments (IEEE-754 / POSIX): `log (+∞) = +∞`,
`log 0 = -∞`, ordinary logarithm on positive reals. (A negative argument
yields NaN in C; it cannot arise from an in-range ADC reading and is mapped
to `⊥` here, which no claim relies on.) -/
noncomputable def elog (x : EReal) : EReal :=
  if x = ⊤ then ⊤ else if x ≤ 0 then ⊥ else ((Real.log x.toReal : ℝ) : EReal)

theorem elog_top : elog ⊤ = ⊤ := by
  unfold elog
  rw [if_pos rfl]

theorem elog_coe_of_pos {r : ℝ} (h : 0 < r) : elog (r : EReal) = ((Real.log r : ℝ) : EReal) := by
  unfold elog
  rw [if_neg (EReal.coe_ne_top r), if_neg (by rw [EReal.coe_nonpos]; exact not_le.mpr h),
    EReal.toReal_coe]

theorem elog_coe_of_nonpos {r : ℝ} (h : r ≤ 0) : elog (r : EReal) = ⊥ := by
  unfold elog
  rw [if_neg (EReal.coe_ne_top r), if_pos (EReal.coe_nonpos.mpr h)]

theorem truncToInt_nonneg {x : ℝ} (h : 0 ≤ x) : 0 ≤ truncToInt x := by
  unfold truncToInt
  rw [if_pos h]
  exact Int.floor_nonneg.mpr h

theorem truncToInt_le_of_le {x : ℝ} {n : ℤ} (h : x ≤ (n : ℝ)) : truncToInt x ≤ n := by
  unfold truncToInt
  split
  · exact Int.floor_le_iff.mpr (lt_of_le_of_lt h (by linarith))
  · exact Int.ceil_le.mpr h

theorem truncToInt_mono_of_nonneg {x y : ℝ} (hx : 0 ≤ x) (hxy : x ≤ y) :
    truncToInt x ≤ truncToInt y := by
  unfold truncToInt
  rw [if_pos hx, if_pos (hx.trans hxy)]
  exact Int.floor_mono hxy

theorem truncToInt_intCast (n : ℤ) : truncToInt (n : ℝ) = n := by
  unfold truncToInt
  split
  · exact Int.floor_intCast n
  · exact Int.ceil_intCast n

namespace SensorLdr

/-- `float R_CLARO = 146*1e3;` (sensor_ldr.cpp line 27). -/
def R_CLARO : ℝ := 146 * 1000

/-- `float R_ESCURO = 5*1e6;` (sensor_ldr.cpp line 28). -/
def R_ESCURO : ℝ := 5 * 1000000

/-- `const float ADC_MAX = 4095.0;` (sensor_ldr.cpp line 29). -/
def ADC_MAX : ℝ := 4095

/-- `const float R_FIXO = 10000.0;` (sensor_ldr.cpp line 30). -/
def R_FIXO : ℝ := 10000

/-- `float r_ldr = R_FIXO*(ADC_MAX - valor)/valor;` (sensor_ldr.cpp line 61)
as an expression over the reals, as a function of the raw ADC value. -/
noncomputable def r_ldr (valor : ℤ) : ℝ := R_FIXO * (ADC_MAX - (valor : ℝ)) / (valor : ℝ)

/-- The value the float division actually takes, as an extended real: at
`valor = 0` the positive numerator divided by `0.0` is `+∞` under IEEE-754. -/
noncomputable def r_ldrE (valor : ℤ) : EReal :=
  if valor = 0 then ⊤ else ((r_ldr valor : ℝ) : EReal)

/-- `int lerLuminosidadePercentual()` (sensor_ldr.cpp lines 59–74), as a
function of the raw ADC value `valor` that the method obtains from
`lerValor()`. The two strict comparisons and the interpolation are verbatim
from the source; in the interpolation branch all logarithms are finite, so
the `EReal.toReal` projections are the real logarithms. -/
noncomputable def lerLuminosidadePercentual (valor : ℤ) : ℤ :=
  let log_r_ldr := elog (r_ldrE valor)
  let log_r_claro := elog ((R_CLARO : EReal))
  let log_r_escuro := elog ((R_ESCURO : EReal))
  if log_r_escuro < log_r_ldr then 0
  else if log_r_ldr < log_r_claro then 100
  else truncToInt (100 * (log_r_escuro.toReal - log_r_ldr.toReal) /
    (log_r_escuro.toReal - log_r_claro.toReal))

theorem R_CLARO_pos : (0 : ℝ) < R_CLARO := by norm_num [R_CLARO]

theorem R_ESCURO_pos : (0 : ℝ) < R_ESCURO := by norm_num [R_ESCURO]

theorem log_claro_lt_log_escuro : Real.log R_CLARO < Real.log R_ESCURO :=
  Real.log_lt_log R_CLARO_pos (by norm_num [R_CLARO, R_ESCURO])

theorem r_ldr_pos {v : ℤ} (h0 : 0 < v) (h4 : v < 4095) : 0 < r_ldr v := by
  unfold r_ldr R_FIXO ADC_MAX
  have hv : (0 : ℝ) < (v : ℝ) := by exact_mod_cast h0
  have hv4 : (v : ℝ) < 4095 := by exact_mod_cast h4
  exact div_pos (mul_pos (by norm_num) (by linarith)) hv

theorem r_ldr_zero : r_ldr 0 = 0 := by
  unfold r_ldr
  norm_num

theorem r_ldr_anti {v1 v2 : ℤ} (h0 : 0 < v1) (h12 : v1 < v2) : r_ldr v2 < r_ldr v1 := by
  unfold r_ldr R_FIXO ADC_MAX
  have h1 : (0 : ℝ) < (v1 : ℝ) := by exact_mod_cast h0
  have h2 : (v1 : ℝ) < (v2 : ℝ) := by exact_mod_cast h12
  rw [div_lt_div_iff₀ (by linarith) h1]
  nlinarith

/-- On any input with a positive computed resistance, the float computation
stays finite and the method is the three-branch real-valued expression of
the source. -/
theorem lum_eq_real {v : ℤ} (hv : v ≠ 0) (hpos : 0 < r_ldr v) :
    lerLuminosidadePercentual v =
      if Real.log R_ESCURO < Real.log (r_ldr v) then 0
      else if Real.log (r_ldr v) < Real.log R_CLARO then 100
      else truncToInt (100 * (Real.log R_ESCURO - Real.log (r_ldr v)) /
        (Real.log R_ESCURO - Real.log R_CLARO)) := by
  unfold lerLuminosidadePercentual r_ldrE
  rw [if_neg hv, elog_coe_of_pos hpos, elog_coe_of_pos R_CLARO_pos, elog_coe_of_pos R_ESCURO_pos]
  simp only [EReal.coe_lt_coe_iff, EReal.toReal_coe]

/-- In the interpolation regime (the real log sits between the two
calibration logs) the returned percentage lies in `[0, 100]`. -/
theorem interp_bounds {a : ℝ} (hca : Real.log R_CLARO ≤ a) (hae : a ≤ Real.log R_ESCURO) :
    0 ≤ truncToInt (100 * (Real.log R_ESCURO - a) / (Real.log R_ESCURO - Real.log R_CLARO)) ∧
    truncToInt (100 * (Real.log R_ESCURO - a) / (Real.log R_ESCURO - Real.log R_CLARO)) ≤ 100 := by
  have hD : 0 < Real.log R_ESCURO - Real.log R_CLARO := sub_pos.mpr log_claro_lt_log_escuro
  have hN0 : 0 ≤ Real.log R_ESCURO - a := sub_nonneg.mpr hae
  have hp0 : 0 ≤ 100 * (Real.log R_ESCURO - a) / (Real.log R_ESCURO - Real.log R_CLARO) := by
    positivity
  refine ⟨truncToInt_nonneg hp0, truncToInt_le_of_le ?_⟩
  rw [div_le_iff₀ hD]
  push_cast
  nlinarith

/-- The returned percentage is in `[0, 100]` for every integer input,
including the non-finite edge inputs. -/
theorem lum_bounds (v : ℤ) :
    0 ≤ lerLuminosidadePercentual v ∧ lerLuminosidadePercentual v ≤ 100 := by
  unfold lerLuminosidadePercentual
  simp only []
  by_cases h1 : elog ((R_ESCURO : EReal)) < elog (r_ldrE v)
  · rw [if_pos h1]
    norm_num
  · rw [if_neg h1]
    by_cases h2 : elog (r_ldrE v) < elog ((R_CLARO : EReal))
    · rw [if_pos h2]
      norm_num
    · rw [if_neg h2]
      rw [elog_coe_of_pos R_CLARO_pos] at h2 ⊢
      rw [elog_coe_of_pos R_ESCURO_pos] at h1 ⊢
      have hAtop : elog (r_ldrE v) ≠ ⊤ :=
        ((not_lt.mp h1).trans_lt (EReal.coe_lt_top _)).ne
      have hAbot : elog (r_ldrE v) ≠ ⊥ :=
        ((EReal.bot_lt_coe _).trans_le (not_lt.mp h2)).ne'
      have hca : Real.log R_CLARO ≤ (elog (r_ldrE v)).toReal := by
        have := EReal.toReal_le_toReal (not_lt.mp h2) (EReal.coe_ne_bot _) hAtop
        rwa [EReal.toReal_coe] at this
      have hae : (elog (r_ldrE v)).toReal ≤ Real.log R_ESCURO := by
        have := EReal.toReal_le_toReal (not_lt.mp h1) hAbot (EReal.coe_ne_top _)
        rwa [EReal.toReal_coe] at this
      simpa only [EReal.toReal_coe] using interp_bounds hca hae

/-- `valor = 0`: the float division by zero produces `+∞`, `log` keeps it at
`+∞`, the first strict comparison holds and the method returns 0. -/
theorem lum_zero : lerLuminosidadePercentual 0 = 0 := by
  unfold lerLuminosidadePercentual r_ldrE
  rw [if_pos rfl, elog_top, elog_coe_of_pos R_ESCURO_pos, if_pos (EReal.coe_lt_top _)]

/-- `valor = 4095`: the computed resistance is exactly 0, `log 0 = -∞`, the
second strict comparison holds and the method returns 100. -/
theorem lum_adcmax : lerLuminosidadePercentual 4095 = 100 := by
  have h0 : r_ldr 4095 = 0 := by
    unfold r_ldr ADC_MAX
    norm_num
  have hr : r_ldrE 4095 = (((0 : ℝ)) : EReal) := by
    unfold r_ldrE
    rw [if_neg (by norm_num), h0]
  unfold lerLuminosidadePercentual
  rw [hr, elog_coe_of_nonpos le_rfl, elog_coe_of_pos R_ESCURO_pos, elog_coe_of_pos R_CLARO_pos,
    if_neg not_lt_bot, if_pos (EReal.bot_lt_coe _)]

/-- At or beyond the darkness reference (`log R_sensor ≥ log R_ESCURO`, the
equality case included) the method returns exactly 0: the strict first branch
fires, or the interpolation evaluates to exactly 0. -/
theorem lum_clamp_dark {v : ℤ} (h : elog ((R_ESCURO : EReal)) ≤ elog (r_ldrE v)) :
    lerLuminosidadePercentual v = 0 := by
  unfold lerLuminosidadePercentual
  by_cases h1 : elog ((R_ESCURO : EReal)) < elog (r_ldrE v)
  · rw [if_pos h1]
  · have hEA : elog (r_ldrE v) = elog ((R_ESCURO : EReal)) := le_antisymm (not_lt.mp h1) h
    rw [if_neg h1, hEA, elog_coe_of_pos R_ESCURO_pos, elog_coe_of_pos R_CLARO_pos]
    rw [if_neg (by rw [EReal.coe_lt_coe_iff]; exact not_lt.mpr log_claro_lt_log_escuro.le)]
    rw [EReal.toReal_coe, EReal.toReal_coe, sub_self, mul_zero, zero_div]
    simpa using truncToInt_intCast 0

/-- At or beyond the brightness reference (`log R_sensor ≤ log R_CLARO`, the
equality case included) the method returns exactly 100: the strict second
branch fires, or the interpolation evaluates to exactly 100. -/
theorem lum_clamp_light {v : ℤ} (h : elog (r_ldrE v) ≤ elog ((R_CLARO : EReal))) :
    lerLuminosidadePercentual v = 100 := by
  unfold lerLuminosidadePercentual
  have hCE : elog ((R_CLARO : EReal)) < elog ((R_ESCURO : EReal)) := by
    rw [elog_coe_of_pos R_CLARO_pos, elog_coe_of_pos R_ESCURO_pos, EReal.coe_lt_coe_iff]
    exact log_claro_lt_log_escuro
  rw [if_neg (not_lt.mpr (h.trans hCE.le))]
  by_cases h2 : elog (r_ldrE v) < elog ((R_CLARO : EReal))
  · rw [if_pos h2]
  · have hCA : elog (r_ldrE v) = elog ((R_CLARO : EReal)) := le_antisymm h (not_lt.mp h2)
    rw [if_neg h2, hCA, elog_coe_of_pos R_ESCURO_pos, elog_coe_of_pos R_CLARO_pos,
      EReal.toReal_coe, EReal.toReal_coe]
    have hD : Real.log R_ESCURO - Real.log R_CLARO ≠ 0 :=
      (sub_pos.mpr log_claro_lt_log_escuro).ne'
    rw [mul_div_assoc, div_self hD, mul_one]
    simpa using truncToInt_intCast 100

/-- When the computed resistance lies strictly between the two calibration
references, the method returns the truncated log-linear interpolation. -/
theorem lum_interp {v : ℤ} (hc : R_CLARO < r_ldr v) (he : r_ldr v < R_ESCURO) :
    lerLuminosidadePercentual v =
      truncToInt (100 * (Real.log R_ESCURO - Real.log (r_ldr v)) /
        (Real.log R_ESCURO - Real.log R_CLARO)) := by
  have hv : v ≠ 0 := by
    intro h
    rw [h, r_ldr_zero] at hc
    exact absurd hc (not_lt.mpr R_CLARO_pos.le)
  have hpos : 0 < r_ldr v := R_CLARO_pos.trans hc
  rw [lum_eq_real hv hpos,
    if_neg (not_lt.mpr (Real.log_le_log hpos he.le)),
    if_neg (not_lt.mpr (Real.log_le_log R_CLARO_pos hc.le))]

/-- The percentage is non-decreasing in the raw ADC value on the valid open
range: a larger reading means a smaller resistance, hence more light. -/
theorem lum_mono {v1 v2 : ℤ} (h0 : 0 < v1) (h12 : v1 < v2) (h4 : v2 < 4095) :
    lerLuminosidadePercentual v1 ≤ lerLuminosidadePercentual v2 := by
  have h01 : (0 : ℤ) < v2 := h0.trans h12
  have h41 : v1 < 4095 := h12.trans h4
  have hp1 := r_ldr_pos h0 h41
  have hp2 := r_ldr_pos h01 h4
  have hlog : Real.log (r_ldr v2) < Real.log (r_ldr v1) :=
    Real.log_lt_log hp2 (r_ldr_anti h0 h12)
  by_cases hb1 : Real.log R_ESCURO < Real.log (r_ldr v1)
  · rw [lum_eq_real h0.ne' hp1, if_pos hb1]
    exact (lum_bounds v2).1
  · by_cases hb2 : Real.log (r_ldr v1) < Real.log R_CLARO
    · rw [lum_eq_real h0.ne' hp1, if_neg hb1, if_pos hb2, lum_eq_real h01.ne' hp2,
        if_neg (not_lt.mpr (hlog.trans_le (not_lt.mp hb1)).le), if_pos (hlog.trans hb2)]
    · by_cases hb2' : Real.log (r_ldr v2) < Real.log R_CLARO
      · rw [lum_eq_real h01.ne' hp2,
          if_neg (not_lt.mpr (hlog.trans_le (not_lt.mp hb1)).le), if_pos hb2']
        have := lum_bounds v1
        rw [lum_eq_real h0.ne' hp1, if_neg hb1, if_neg hb2] at this ⊢
        exact this.2
      · rw [lum_eq_real h0.ne' hp1, if_neg hb1, if_neg hb2, lum_eq_real h01.ne' hp2,
          if_neg (not_lt.mpr (hlog.trans_le (not_lt.mp hb1)).le), if_neg hb2']
        have hD : (0 : ℝ) < Real.log R_ESCURO - Real.log R_CLARO :=
          sub_pos.mpr log_claro_lt_log_escuro
        have hN1 : (0 : ℝ) ≤ Real.log R_ESCURO - Real.log (r_ldr v1) :=
          sub_nonneg.mpr (not_lt.mp hb1)
        refine truncToInt_mono_of_nonneg (by positivity) ?_
        gcongr

end SensorLdr

namespace ClienteUDP

/-- `float R_CLARO = 146*1e3;` (clienteUDP_sensor_ldr.cpp line 52). -/
def R_CLARO : ℝ := 146 * 1000

/-- `float R_ESCURO = 5*1e6;` (clienteUDP_sensor_ldr.cpp line 55). -/
def R_ESCURO : ℝ := 5 * 1000000

/-- `const float ADC_MAX = 4095.0;` (clienteUDP_sensor_ldr.cpp line 58). -/
def ADC_MAX : ℝ := 4095

/-- `const float R_FIXO = 10000.0;` (clienteUDP_sensor_ldr.cpp line 61). -/
def R_FIXO : ℝ := 10000

/-- `float r_ldr = R_FIXO * (ADC_MAX - valor) / valor;`
(clienteUDP_sensor_ldr.cpp line 104) over the reals. -/
noncomputable def r_ldr (valor : ℤ) : ℝ := R_FIXO * (ADC_MAX - (valor : ℝ)) / (valor : ℝ)

/-- As in `SensorLdr.r_ldrE`: the IEEE-754 value of the division, `+∞` at
`valor = 0`. -/
noncomputable def r_ldrE (valor : ℤ) : EReal :=
  if valor = 0 then ⊤ else ((r_ldr valor : ℝ) : EReal)

/-- `int lerLuminosidadePercentual()` (clienteUDP_sensor_ldr.cpp lines
100–123), as a function of the raw ADC value; textually the same
computation as the sensor_ldr.cpp variant. -/
noncomputable def lerLuminosidadePercentual (valor : ℤ) : ℤ :=
  let log_r_ldr := elog (r_ldrE valor)
  let log_r_claro := elog ((R_CLARO : EReal))
  let log_r_escuro := elog ((R_ESCURO : EReal))
  if log_r_escuro < log_r_ldr then 0
  else if log_r_ldr < log_r_claro then 100
  else truncToInt (100 * (log_r_escuro.toReal - log_r_ldr.toReal) /
    (log_r_escuro.toReal - log_r_claro.toReal))

/-- `int lerValor()` (clienteUDP_sensor_ldr.cpp lines 79–90). The acquisition
source is modelled as `Option ℤ`: `some v` when the sysfs file opens and the
integer `v` is read, `none` when the open fails. The source initialises
`valor = 0`, reads into it only when the file is open, and prints an error
message otherwise; the second component records whether that error message
was printed. -/
def lerValor (acq : Option ℤ) : ℤ × Bool :=
  match acq with
  | some valor => (valor, false)
  | none => (0, true)

/-- The per-cycle environment of the `while (true)` loop in `main`
(clienteUDP_sensor_ldr.cpp lines 170–207): what the acquisition source
yields this cycle, and whether `sendto` succeeds. -/
structure CycleInput where
  acquisition : Option ℤ
  sendOk : Bool

/-- The externally observable effects of one loop iteration: the bytes
handed to `sendto`, the length argument passed to it, whether the
send-error path (`perror`) ran, and whether `sleep(1)` ran. -/
structure CycleOutput where
  payload : List Char
  sentLen : ℕ
  sendErrorReported : Bool
  slept : Bool

/-- One iteration of the `while (true)` loop in `main`
(clienteUDP_sensor_ldr.cpp lines 170–207): read and convert
(`ldr.lerLuminosidadePercentual()`), render with `to_string`, call `sendto`
with the string's pointer and `length()` (no null terminator included), then
either report the error (`bytes_sent == -1`) or print and `sleep(1)`. Note
the source places `sleep(1)` inside the success (`else`) branch only. -/
noncomputable def cycle (inp : CycleInput) : CycleOutput :=
  let val : ℤ := lerLuminosidadePercentual (lerValor inp.acquisition).1
  let val_str : String := toString val
  let message_len : ℕ := val_str.length
  if inp.sendOk then
    { payload := val_str.data, sentLen := message_len, sendErrorReported := false, slept := true }
  else
    { payload := val_str.data, sentLen := message_len, sendErrorReported := true, slept := false }

/-- Finite traces of the infinite loop: one `cycle` per environment input. -/
noncomputable def run : List CycleInput → List CycleOutput
  | [] => []
  | i :: is => cycle i :: run is

theorem run_length (l : List CycleInput) : (run l).length = l.length := by
  induction l with
  | nil => rfl
  | cons i is ih => simp [run, ih]

theorem cycle_slept (inp : CycleInput) : (cycle inp).slept = inp.sendOk := by
  obtain ⟨acq, s⟩ := inp
  cases s <;> rfl

end ClienteUDP

/-- Claim C2: for every raw ADC value strictly between 0 and ADC_max (4095),
`lerLuminosidadePercentual` returns an integer in [0, 100]; in particular
the boundary inputs 1 and 4094 return values in that range. -/
theorem SensorLdr.percentInRangeForValidRaw (raw : ℤ) (h0 : 0 < raw) (h4 : raw < 4095) :
    0 ≤ SensorLdr.lerLuminosidadePercentual raw ∧
    SensorLdr.lerLuminosidadePercentual raw ≤ 100 :=
  SensorLdr.lum_bounds raw

/-- Witness for C2 at the boundary inputs `raw = 1` and `raw = 4094`. -/
theorem SensorLdr.percentInRangeForValidRaw_witness :
    ((0 : ℤ) < 1 ∧ (1 : ℤ) < 4095 ∧
      0 ≤ SensorLdr.lerLuminosidadePercentual 1 ∧
      SensorLdr.lerLuminosidadePercentual 1 ≤ 100) ∧
    ((0 : ℤ) < 4094 ∧ (4094 : ℤ) < 4095 ∧
      0 ≤ SensorLdr.lerLuminosidadePercentual 4094 ∧
      SensorLdr.lerLuminosidadePercentual 4094 ≤ 100) :=
  ⟨⟨by decide, by decide, (SensorLdr.percentInRangeForValidRaw 1 (by decide) (by decide)).1,
      (SensorLdr.percentInRangeForValidRaw 1 (by decide) (by decide)).2⟩,
    ⟨by decide, by decide, (SensorLdr.percentInRangeForValidRaw 4094 (by decide) (by decide)).1,
      (SensorLdr.percentInRangeForValidRaw 4094 (by decide) (by decide)).2⟩⟩

/-- Claim C3: whenever the computed log-resistance is at or above the
darkness reference the method returns exactly 0, and whenever it is at or
below the brightness reference it returns exactly 100, the equality cases
included (at equality the strict branch is skipped but the interpolation
evaluates to exactly 0, resp. 100). -/
theorem SensorLdr.clampAtReferences (raw : ℤ) :
    (elog ((SensorLdr.R_ESCURO : EReal)) ≤ elog (SensorLdr.r_ldrE raw) →
      SensorLdr.lerLuminosidadePercentual raw = 0) ∧
    (elog (SensorLdr.r_ldrE raw) ≤ elog ((SensorLdr.R_CLARO : EReal)) →
      SensorLdr.lerLuminosidadePercentual raw = 100) :=
  ⟨fun h => SensorLdr.lum_clamp_dark h, fun h => SensorLdr.lum_clamp_light h⟩

/-- Witness for C3: `raw = 1` is at or beyond the darkness reference
(resistance 40 940 000 Ω ≥ 5 000 000 Ω) and yields 0, `raw = 4094` is at or
beyond the brightness reference (resistance 10000/4094 Ω ≤ 146 000 Ω) and
yields 100. -/
theorem SensorLdr.clampAtReferences_witness :
    (elog ((SensorLdr.R_ESCURO : EReal)) ≤ elog (SensorLdr.r_ldrE 1) ∧
      SensorLdr.lerLuminosidadePercentual 1 = 0) ∧
    (elog (SensorLdr.r_ldrE 4094) ≤ elog ((SensorLdr.R_CLARO : EReal)) ∧
      SensorLdr.lerLuminosidadePercentual 4094 = 100) := by
  have hr1 : SensorLdr.r_ldrE 1 = (((40940000 : ℝ)) : EReal) := by
    unfold SensorLdr.r_ldrE
    rw [if_neg (by decide)]
    unfold SensorLdr.r_ldr SensorLdr.R_FIXO SensorLdr.ADC_MAX
    norm_num
  have hr2 : SensorLdr.r_ldrE 4094 = (((10000 / 4094 : ℝ)) : EReal) := by
    unfold SensorLdr.r_ldrE
    rw [if_neg (by decide)]
    unfold SensorLdr.r_ldr SensorLdr.R_FIXO SensorLdr.ADC_MAX
    norm_num
  have h1 : elog ((SensorLdr.R_ESCURO : EReal)) ≤ elog (SensorLdr.r_ldrE 1) := by
    rw [hr1, elog_coe_of_pos SensorLdr.R_ESCURO_pos, elog_coe_of_pos (by norm_num),
      EReal.coe_le_coe_iff]
    exact Real.log_le_log SensorLdr.R_ESCURO_pos (by norm_num [SensorLdr.R_ESCURO])
  have h2 : elog (SensorLdr.r_ldrE 4094) ≤ elog ((SensorLdr.R_CLARO : EReal)) := by
    rw [hr2, elog_coe_of_pos (by norm_num), elog_coe_of_pos SensorLdr.R_CLARO_pos,
      EReal.coe_le_coe_iff]
    exact Real.log_le_log (by norm_num) (by norm_num [SensorLdr.R_CLARO])
  exact ⟨⟨h1, (SensorLdr.clampAtReferences 1).1 h1⟩,
    ⟨h2, (SensorLdr.clampAtReferences 4094).2 h2⟩⟩

/-- Claim C4: the edge inputs `raw = 0` and `raw = 4095` return the defined
clamped values 0 and 100 respectively and never a negative (or non-finite)
result: under IEEE-754 the division by zero gives `+∞` and `log 0` gives
`-∞`, and the two strict clamp comparisons then fire. -/
theorem SensorLdr.edgeInputsReturnClampedValues :
    SensorLdr.lerLuminosidadePercentual 0 = 0 ∧
    SensorLdr.lerLuminosidadePercentual 4095 = 100 ∧
    0 ≤ SensorLdr.lerLuminosidadePercentual 0 ∧
    0 ≤ SensorLdr.lerLuminosidadePercentual 4095 :=
  ⟨SensorLdr.lum_zero, SensorLdr.lum_adcmax,
    (SensorLdr.lum_bounds 0).1, (SensorLdr.lum_bounds 4095).1⟩

/-- Claim C5: on the valid open range the computed resistance is strictly
decreasing in the raw value, and the returned percentage is non-decreasing
in the raw value. -/
theorem SensorLdr.resistanceAntitonePercentMonotone (raw1 raw2 : ℤ) (h0 : 0 < raw1)
    (h12 : raw1 < raw2) (h4 : raw2 < 4095) :
    SensorLdr.r_ldr raw2 < SensorLdr.r_ldr raw1 ∧
    SensorLdr.lerLuminosidadePercentual raw1 ≤ SensorLdr.lerLuminosidadePercentual raw2 :=
  ⟨SensorLdr.r_ldr_anti h0 h12, SensorLdr.lum_mono h0 h12 h4⟩

/-- Witness for C5 at the pair `raw1 = 2000`, `raw2 = 3000`. -/
theorem SensorLdr.resistanceAntitonePercentMonotone_witness :
    (0 : ℤ) < 2000 ∧ (2000 : ℤ) < 3000 ∧ (3000 : ℤ) < 4095 ∧
    SensorLdr.r_ldr 3000 < SensorLdr.r_ldr 2000 ∧
    SensorLdr.lerLuminosidadePercentual 2000 ≤ SensorLdr.lerLuminosidadePercentual 3000 :=
  ⟨by decide, by decide, by decide,
    (SensorLdr.resistanceAntitonePercentMonotone 2000 3000 (by decide) (by decide)
      (by decide)).1,
    (SensorLdr.resistanceAntitonePercentMonotone 2000 3000 (by decide) (by decide)
      (by decide)).2⟩

/-- Claim C6: for valid raw values whose resistance lies strictly between the
two references, the resistance is the voltage-divider expression
`R_FIXO * (ADC_MAX - raw) / raw` and the result is the log-linear
interpolation `100 * (log R_ESCURO - log R_sensor) / (log R_ESCURO - log
R_CLARO)` truncated toward zero. -/
theorem SensorLdr.interpolationFormula (raw : ℤ) (h0 : 0 < raw) (h4 : raw < 4095)
    (hc : SensorLdr.R_CLARO < SensorLdr.r_ldr raw) (he : SensorLdr.r_ldr raw < SensorLdr.R_ESCURO) :
    SensorLdr.lerLuminosidadePercentual raw =
      truncToInt (100 * (Real.log SensorLdr.R_ESCURO - Real.log (SensorLdr.r_ldr raw)) /
        (Real.log SensorLdr.R_ESCURO - Real.log SensorLdr.R_CLARO)) ∧
    SensorLdr.r_ldr raw = SensorLdr.R_FIXO * (SensorLdr.ADC_MAX - (raw : ℝ)) / (raw : ℝ) :=
  ⟨SensorLdr.lum_interp hc he, rfl⟩

/-- Witness for C6 at `raw = 100` (resistance 399 500 Ω, strictly between the
references). -/
theorem SensorLdr.interpolationFormula_witness :
    SensorLdr.R_CLARO < SensorLdr.r_ldr 100 ∧ SensorLdr.r_ldr 100 < SensorLdr.R_ESCURO ∧
    SensorLdr.lerLuminosidadePercentual 100 =
      truncToInt (100 * (Real.log SensorLdr.R_ESCURO - Real.log (SensorLdr.r_ldr 100)) /
        (Real.log SensorLdr.R_ESCURO - Real.log SensorLdr.R_CLARO)) := by
  have hc : SensorLdr.R_CLARO < SensorLdr.r_ldr 100 := by
    unfold SensorLdr.r_ldr SensorLdr.R_FIXO SensorLdr.ADC_MAX SensorLdr.R_CLARO
    norm_num
  have he : SensorLdr.r_ldr 100 < SensorLdr.R_ESCURO := by
    unfold SensorLdr.r_ldr SensorLdr.R_FIXO SensorLdr.ADC_MAX SensorLdr.R_ESCURO
    norm_num
  exact ⟨hc, he, (SensorLdr.interpolationFormula 100 (by decide) (by decide) hc he).1⟩

/-- Claim C9: the calibration constants are `R_CLARO = 146000 < R_ESCURO =
5000000`, the interpolation denominator `log R_ESCURO - log R_CLARO` is
strictly positive, and no input can satisfy both clamp-branch conditions at
once. -/
theorem SensorLdr.calibrationInvariant :
    SensorLdr.R_CLARO = 146000 ∧ SensorLdr.R_ESCURO = 5000000 ∧
    SensorLdr.R_CLARO < SensorLdr.R_ESCURO ∧
    0 < Real.log SensorLdr.R_ESCURO - Real.log SensorLdr.R_CLARO ∧
    ∀ raw : ℤ, ¬ (elog ((SensorLdr.R_ESCURO : EReal)) < elog (SensorLdr.r_ldrE raw) ∧
      elog (SensorLdr.r_ldrE raw) < elog ((SensorLdr.R_CLARO : EReal))) := by
  refine ⟨by norm_num [SensorLdr.R_CLARO], by norm_num [SensorLdr.R_ESCURO],
    by norm_num [SensorLdr.R_CLARO, SensorLdr.R_ESCURO],
    sub_pos.mpr SensorLdr.log_claro_lt_log_escuro, fun raw h => ?_⟩
  have hlt := h.1.trans h.2
  rw [elog_coe_of_pos SensorLdr.R_ESCURO_pos, elog_coe_of_pos SensorLdr.R_CLARO_pos,
    EReal.coe_lt_coe_iff] at hlt
  exact absurd hlt (not_lt.mpr SensorLdr.log_claro_lt_log_escuro.le)

/-- Witness for C9: branch exclusivity instantiated at `raw = 100`. -/
theorem SensorLdr.calibrationInvariant_witness :
    ¬ (elog ((SensorLdr.R_ESCURO : EReal)) < elog (SensorLdr.r_ldrE 100) ∧
      elog (SensorLdr.r_ldrE 100) < elog ((SensorLdr.R_CLARO : EReal))) :=
  SensorLdr.calibrationInvariant.2.2.2.2 100

/-- Claim C10: the two source variants implement the same
measurement-to-percentage model: on every raw value the two
`lerLuminosidadePercentual` functions (with the same calibration constants)
agree. -/
theorem variantsAgree (raw : ℤ) :
    SensorLdr.lerLuminosidadePercentual raw = ClienteUDP.lerLuminosidadePercentual raw := rfl

/-- Witness for C10 at `raw = 100`. -/
theorem variantsAgree_witness :
    SensorLdr.lerLuminosidadePercentual 100 = ClienteUDP.lerLuminosidadePercentual 100 :=
  variantsAgree 100

/-- Claim C1, evaluated at failing cycles. The loop does keep running when
`sendto` fails (the failure is reported via `perror` and the next iteration
follows: a 5-cycle all-failing trace still has 5 cycles), but the fixed
one-second delay does NOT happen on a failed cycle: `sleep(1)` sits in the
success-only `else` branch, so `slept = false` on every failed cycle —
contradicting the claim (and the loop's own comment that it reads and sends
every 1 second). -/
theorem ClienteUDP.sendFailureLoopContinuesButSkipsDelay :
    (ClienteUDP.cycle ⟨some 100, false⟩).sendErrorReported = true ∧
    (ClienteUDP.cycle ⟨some 100, false⟩).slept = false ∧
    (ClienteUDP.run (List.replicate 5 ⟨some 100, false⟩)).length = 5 := by
  refine ⟨rfl, rfl, ?_⟩
  rw [ClienteUDP.run_length, List.length_replicate]

/-- Claim C7: when the acquisition file cannot be opened, `lerValor` reports
the failure and returns the defensive default 0 (no crash: the model is a
total function), that default flows into the conversion for the cycle's
payload, and the loop still runs every following cycle. -/
theorem ClienteUDP.acquisitionFailureDefaultsToZeroAndContinues :
    ClienteUDP.lerValor none = (0, true) ∧
    (ClienteUDP.cycle ⟨none, true⟩).payload =
      (toString (ClienteUDP.lerLuminosidadePercentual 0)).data ∧
    ∀ rest : List ClienteUDP.CycleInput,
      (ClienteUDP.run (⟨none, true⟩ :: rest)).length = rest.length + 1 := by
  refine ⟨rfl, rfl, fun rest => ?_⟩
  rw [ClienteUDP.run_length]
  rfl

/-- Witness for C7: a two-cycle trace whose first cycle has a failed
acquisition still executes both cycles. -/
theorem ClienteUDP.acquisitionFailureDefaultsToZeroAndContinues_witness :
    ClienteUDP.lerValor none = (0, true) ∧
    (ClienteUDP.run [⟨none, true⟩, ⟨some 100, true⟩]).length = 2 :=
  ⟨ClienteUDP.acquisitionFailureDefaultsToZeroAndContinues.1,
    ClienteUDP.acquisitionFailureDefaultsToZeroAndContinues.2.2 [⟨some 100, true⟩]⟩

/-- Claim C8: each cycle the bytes handed to `sendto` are exactly the
decimal rendering (`to_string`) of the computed percentage, and the length
argument is the string's length — no delimiter, no length prefix, and no
trailing null byte (the terminator of `c_str()` is not counted by
`length()`). -/
theorem ClienteUDP.payloadIsDecimalRenderingWithExactLength (inp : ClienteUDP.CycleInput) :
    (ClienteUDP.cycle inp).payload =
      (toString (ClienteUDP.lerLuminosidadePercentual (ClienteUDP.lerValor inp.acquisition).1)).data ∧
    (ClienteUDP.cycle inp).sentLen =
      (toString (ClienteUDP.lerLuminosidadePercentual (ClienteUDP.lerValor inp.acquisition).1)).length := by
  obtain ⟨acq, s⟩ := inp
  cases s <;> exact ⟨rfl, rfl⟩

/-- Witness for C8 at a concrete cycle (raw reading 100, send succeeds). -/
theorem ClienteUDP.payloadIsDecimalRenderingWithExactLength_witness :
    (ClienteUDP.cycle ⟨some 100, true⟩).payload =
      (toString (ClienteUDP.lerLuminosidadePercentual (ClienteUDP.lerValor (some 100)).1)).data ∧
    (ClienteUDP.cycle ⟨some 100, true⟩).sentLen =
      (toString (ClienteUDP.lerLuminosidadePercentual (ClienteUDP.lerValor (some 100)).1)).length :=
  ClienteUDP.payloadIsDecimalRenderingWithExactLength ⟨some 100, true⟩
